import Mathlib

/-!
Shallow embedding of the Telegram relay bot.

The repository holds two near-duplicate scripts:
  * `src/main.py`           — embedded in namespace `Main`
  * `src/unnamed/part_000`  — embedded in namespace `V1`

Conventions of the embedding:
  * machine time (`time.time()`) is modelled as a rational number `ℚ`;
  * per-user `context.user_data` is the structure `UserState`
    (`last_time`, `busy_shown`);
  * process-wide `context.bot_data` is the structure `BotData`
    (`admin_available`, `admin_status_changed`, `forwarded_map`);
  * the Python dict `forwarded_map` is an association list where
    `d[k] = v` prepends `(k, v)` and lookup returns the first hit,
    which matches dict overwrite semantics;
  * outbound effects (reply_text, send_message, forward_message) become a
    `List Act` returned by each handler;
  * the fallible transport forward is an oracle `fwd : Option Nat`
    (`none` = the swallowed exception, `some id` = new message id);
  * the generative service call is an oracle
    `svc : Except String GenResp` (`error e` = raised exception with
    message `e`, `ok r` = the response object), plus an oracle
    `outerExc : Option String` for an exception escaping
    `await ask_gemini(...)` itself (e.g. from `asyncio.to_thread`).
-/

/-- Outbound effect emitted by a handler.  `replyText` answers in the chat
the inbound update came from; `sendMessage` targets an explicit chat;
`forward` is `bot.forward_message(chat_id := toChat, from_chat_id := fromChat,
message_id := msgId)`. -/
inductive Act where
  | replyText (text : String)
  | sendMessage (chatId : Nat) (text : String)
  | forward (toChat fromChat msgId : Nat)
deriving DecidableEq

/-- Per-user state, Python `context.user_data`: `last_time` (cooldown stamp,
default 0) and `busy_shown` (default `False`). -/
structure UserState where
  last_time : ℚ
  busy_shown : Bool
deriving DecidableEq

/-- Process-wide state, Python `context.bot_data`: `admin_available`
(default `False`), `admin_status_changed` (the strings `"available"` /
`"away"` or `None`) and the forwarded-message correlation map. -/
structure BotData where
  admin_available : Bool
  admin_status_changed : Option String
  forwarded_map : List (Nat × Nat)
deriving DecidableEq

/-- A response object of the generative service: `text` is the `resp.text`
attribute (`none` for absent or `None`), `candidates` is the list of
`str(resp.candidates[i].content)` values, and `repr` stands for `str(resp)`. -/
structure GenResp where
  text : Option String
  candidates : List String
  repr : String

/-- Python `pat in s` substring test (for a nonempty pattern):
`s.splitOn pat` has at least two pieces iff `pat` occurs in `s`. -/
def strContains (s pat : String) : Bool :=
  decide (2 ≤ (s.splitOn pat).length)

/-- Python `random.choice` on a list; on the singleton lists used by both
scripts it deterministically returns the head. -/
def randomChoice (l : List String) : String :=
  l.headD ""

/-- Python `str.lower()`, modelled as a code-point-wise lowercase map
(the greeting tokens it is compared against are pure ASCII). -/
def lowerStr (s : String) : String :=
  String.mk (s.data.map Char.toLower)

namespace Main

/-- `detect_language` of `src/main.py` lines 43–50: Devanagari block
(U+0900–U+097F) first → `"hindi"`, else Bengali block (U+0980–U+09FF) →
`"bengali"`, else a Latin letter → `"english"`, else `"english"`. -/
def detect_language (text : String) : String :=
  if text.data.any (fun c => decide (0x0900 ≤ c.toNat ∧ c.toNat ≤ 0x097F)) then "hindi"
  else if text.data.any (fun c => decide (0x0980 ≤ c.toNat ∧ c.toNat ≤ 0x09FF)) then "bengali"
  else if text.data.any (fun c =>
      decide ((0x41 ≤ c.toNat ∧ c.toNat ≤ 0x5A) ∨ (0x61 ≤ c.toNat ∧ c.toNat ≤ 0x7A))) then "english"
  else "english"

/-- `FALLBACK_RESPONSES` of `src/main.py` line 63. -/
def FALLBACK_RESPONSES : List String := ["Message sent ✅."]

/-- `ask_gemini` of `src/main.py` lines 79–100.  The inner `call` catches
every exception of the service and returns a fallback; on a response it
returns `resp.text.strip()` when that attribute is a nonempty string, else
the first candidate stringified and stripped, else `str(resp)`. -/
def ask_gemini (svc : Except String GenResp) (_prompt : String) : String :=
  match svc with
  | .error _ => randomChoice FALLBACK_RESPONSES
  | .ok resp =>
    match resp.text with
    | some t =>
      if t ≠ "" then t.trim
      else if resp.candidates ≠ [] then (resp.candidates.headD "").trim
      else resp.repr
    | none =>
      if resp.candidates ≠ [] then (resp.candidates.headD "").trim
      else resp.repr

/-- `safe_ask_gemini` of `src/main.py` lines 69–75.  `outerExc` models an
exception raised by `await ask_gemini(prompt)` itself (the inner call never
raises); on it, a 429/rate error message picks from `FALLBACK_RESPONSES`,
any other yields the literal `"Message sent ✅"`. -/
def safe_ask_gemini (outerExc : Option String) (svc : Except String GenResp)
    (prompt : String) : String :=
  match outerExc with
  | some e =>
    if strContains e "429" || strContains e.toLower "rate" then
      randomChoice FALLBACK_RESPONSES
    else "Message sent ✅"
  | none => ask_gemini svc prompt

/-- `user_spam` of `src/main.py` lines 104–112: block when
`now - last_time < 1.5`, otherwise stamp `last_time := now` and pass. -/
def user_spam (now : ℚ) (u : UserState) : Bool × UserState :=
  if now - u.last_time < 1.5 then (true, u)
  else (false, { u with last_time := now })

/-- The `setAvailable` transition, `src/main.py` lines 129–130. -/
def setAvailable (b : BotData) : BotData :=
  { b with admin_available := true, admin_status_changed := some "available" }

/-- The `setAway` transition, `src/main.py` lines 139–140. -/
def setAway (b : BotData) : BotData :=
  { b with admin_available := false, admin_status_changed := some "away" }

/-- `available_cmd` of `src/main.py` lines 125–132. -/
def available_cmd (adminId senderId : Nat) (b : BotData) : List Act × BotData :=
  if senderId ≠ adminId then ([Act.replyText "❌ Not allowed."], b)
  else ([Act.replyText "🟢 Admin is now available."], setAvailable b)

/-- `away_cmd` of `src/main.py` lines 135–142. -/
def away_cmd (adminId senderId : Nat) (b : BotData) : List Act × BotData :=
  if senderId ≠ adminId then ([Act.replyText "❌ Not allowed."], b)
  else ([Act.replyText "🔴 Admin is now away."], setAway b)

/-- `recordForward`: the dict write
`bot_data.setdefault("forwarded_map", {})[fwd.message_id] = chat_id`
(`src/main.py` line 180). -/
def recordForward (m : List (Nat × Nat)) (forwardedMessageId originatingChatId : Nat) :
    List (Nat × Nat) :=
  (forwardedMessageId, originatingChatId) :: m

/-- `resolve`: the dict read
`bot_data.get("forwarded_map", {}).get(forwarded_id)` (`src/main.py` line 155). -/
def resolve (m : List (Nat × Nat)) (forwardedMessageId : Nat) : Option Nat :=
  m.lookup forwardedMessageId

/-- `admin_reply_handler` of `src/main.py` lines 146–161.  Note the Python
test `if not user_chat:` also fires on a stored chat id of `0`. -/
def admin_reply_handler (adminId senderId : Nat) (replyTo : Option Nat)
    (text : String) (b : BotData) : List Act × BotData :=
  if senderId ≠ adminId then ([], b)
  else
    match replyTo with
    | none => ([], b)
    | some forwarded_id =>
      match resolve b.forwarded_map forwarded_id with
      | none => ([Act.replyText "❌ User not found."], b)
      | some user_chat =>
        if user_chat = 0 then ([Act.replyText "❌ User not found."], b)
        else ([Act.sendMessage user_chat ("💬 Admin: " ++ text),
               Act.replyText "✅ Sent to user."], b)

/-- The default text of `type_animation`, `src/main.py` line 54. -/
def typingText : String := "💬 Bot is typing…"

/-- One-time notice for the `available` transition, `src/main.py` line 191. -/
def availableNotice : String := "🟢 Admin is available. You can chat now."

/-- One-time notice for the `away` transition, `src/main.py` lines 195–198. -/
def awayNotice : String := "🔴 Admin is busy.\n📨 Message sent.\n⏳ Reply within 48 hours."

/-- The `intelligent_prompt` f-string of `src/main.py` lines 207–232
(only `lang` and `text` are interpolated by the source). -/
def mkPrompt (lang text : String) : String :=
  "\nReply in: " ++ lang ++
  "\n\nRules:\n- reply VERY short (1 or 2 lines)\n- easy & simple language only\n\n" ++
  "1) If greeting:\n     Return a short friendly welcome.\n\n" ++
  "2) If admin_available = true:\n     Reply EXACTLY:\n     \"📩 Message sent to admin.\"\n\n" ++
  "3) If admin_available = false AND first_time = true:\n     Reply EXACTLY:\n     " ++
  "\"🔴 Admin is busy.\n      📨 Message sent.\n      ⏳ Reply within 48 hours.\"\n\n" ++
  "4) If admin_available = false AND first_time = false:\n     Reply EXACTLY:\n     " ++
  "\"📩 Message sent to admin.\"\n\nUser message: " ++ text ++ "\n"

/-- The status-notice consumption step of `handle_message`, `src/main.py`
lines 186–198: read `admin_status_changed`; on `"available"` or `"away"`
reset it to `None` and return the notice tag, otherwise leave it alone. -/
def consumePendingNotice (b : BotData) : Option String × BotData :=
  if b.admin_status_changed = some "available" then
    (some "available", { b with admin_status_changed := none })
  else if b.admin_status_changed = some "away" then
    (some "away", { b with admin_status_changed := none })
  else (none, b)

/-- The result of the k-th `consumePendingNotice` call in a row of
consecutive calls starting from `b` (0-indexed). -/
def consumeStream (b : BotData) : Nat → Option String
  | 0 => (consumePendingNotice b).1
  | k + 1 => consumeStream (consumePendingNotice b).2 k

/-- `handle_message` of `src/main.py` lines 165–236.  Arguments mirror the
update (`chatId`, `msgId`, `text0`), the clock `now`, the forward oracle
`fwd`, the generative-service oracles and the two state components.
Returns the emitted actions, the new user state and the new bot state. -/
def handle_message (adminId chatId msgId : Nat) (text0 : String) (now : ℚ)
    (fwd : Option Nat) (outerExc : Option String) (svc : Except String GenResp)
    (u : UserState) (b : BotData) : List Act × UserState × BotData :=
  let sp := user_spam now u
  if sp.1 then ([], sp.2, b)
  else
    let u1 := sp.2
    let text := String.mk (text0.data.take 500)
    let lang := detect_language text
    let fwdRes : List Act × BotData :=
      match fwd with
      | some fid => ([Act.forward adminId chatId msgId],
                     { b with forwarded_map := recordForward b.forwarded_map fid chatId })
      | none => ([], b)
    let b1 := fwdRes.2
    let acts := fwdRes.1 ++ [Act.replyText typingText]
    let con := consumePendingNotice b1
    match con.1 with
    | some s =>
      if s = "available" then (acts ++ [Act.replyText availableNotice], u1, con.2)
      else (acts ++ [Act.replyText awayNotice], u1, con.2)
    | none =>
      let first_time := !u1.busy_shown
      let u2 := { u1 with busy_shown := true }
      let admin_available := b1.admin_available
      let ai := safe_ask_gemini outerExc svc (mkPrompt lang text)
      (acts ++ [Act.replyText ai], u2, b1)

/-- `start_cmd` of `src/main.py` lines 120–122. -/
def start_cmd : List Act :=
  [Act.replyText typingText, Act.replyText "👋 Welcome! Send hi to begin ✨"]

end Main

namespace V1

/-- `detect_language` of `src/unnamed/part_000` lines 49–52: Bengali block
(U+0980–U+09FF) → `"bengali"`, else `"english"`. -/
def detect_language (text : String) : String :=
  if text.data.any (fun c => decide (0x0980 ≤ c.toNat ∧ c.toNat ≤ 0x09FF)) then "bengali"
  else "english"

/-- `FALLBACK_RESPONSES` of `src/unnamed/part_000` line 65. -/
def FALLBACK_RESPONSES : List String := ["Message sent ✅"]

/-- `ask_gemini` of `src/unnamed/part_000` lines 77–91: on a response whose
`text` attribute is a nonempty string return `resp.text.strip()`, in every
other case (exception included) return `"Message sent ✅"`. -/
def ask_gemini (svc : Except String GenResp) (_prompt : String) : String :=
  match svc with
  | .error _ => "Message sent ✅"
  | .ok resp =>
    match resp.text with
    | some t => if t ≠ "" then t.trim else "Message sent ✅"
    | none => "Message sent ✅"

/-- `safe_ask_gemini` of `src/unnamed/part_000` lines 69–73: a bare
`except:` turns any exception escaping `await ask_gemini(prompt)` into a
pick from `FALLBACK_RESPONSES`. -/
def safe_ask_gemini (outerExc : Option String) (svc : Except String GenResp)
    (prompt : String) : String :=
  match outerExc with
  | some _ => randomChoice FALLBACK_RESPONSES
  | none => ask_gemini svc prompt

/-- `user_spam` of `src/unnamed/part_000` lines 95–101: block when
`now - last_time < 1.2`, otherwise stamp `last_time := now` and pass. -/
def user_spam (now : ℚ) (u : UserState) : Bool × UserState :=
  if now - u.last_time < 1.2 then (true, u)
  else (false, { u with last_time := now })

/-- The `smart_welcome` prompt f-string of `src/unnamed/part_000`
lines 112–120. -/
def mkWelcomePrompt (name lang : String) : String :=
  "\nMake a short friendly welcome message.\nInclude user\x27s name: " ++ name ++
  "\nLanguage: " ++ lang ++
  "\nVery short (1–2 lines).\nSimple Bengali + English mix.\nNo emojis at start.\nMax one emoji at end.\n"

/-- `smart_welcome` of `src/unnamed/part_000` lines 111–123. -/
def smart_welcome (outerExc : Option String) (svc : Except String GenResp)
    (name lang : String) : String :=
  (safe_ask_gemini outerExc svc (mkWelcomePrompt name lang)).trim

/-- `start_cmd` of `src/unnamed/part_000` lines 129–133. -/
def start_cmd (outerExc : Option String) (svc : Except String GenResp)
    (firstName : Option String) : List Act :=
  [Act.replyText (smart_welcome outerExc svc (firstName.getD "Friend") "english")]

/-- The `setAvailable` transition, `src/unnamed/part_000` lines 143–144. -/
def setAvailable (b : BotData) : BotData :=
  { b with admin_available := true, admin_status_changed := some "available" }

/-- The `setAway` transition, `src/unnamed/part_000` lines 153–154. -/
def setAway (b : BotData) : BotData :=
  { b with admin_available := false, admin_status_changed := some "away" }

/-- `available_cmd` of `src/unnamed/part_000` lines 139–146. -/
def available_cmd (adminId senderId : Nat) (b : BotData) : List Act × BotData :=
  if senderId ≠ adminId then ([Act.replyText "❌ Not allowed."], b)
  else ([Act.replyText "🟢 Admin is now available."], setAvailable b)

/-- `away_cmd` of `src/unnamed/part_000` lines 149–156. -/
def away_cmd (adminId senderId : Nat) (b : BotData) : List Act × BotData :=
  if senderId ≠ adminId then ([Act.replyText "❌ Not allowed."], b)
  else ([Act.replyText "🔴 Admin is now away."], setAway b)

/-- `admin_reply_handler` of `src/unnamed/part_000` lines 162–177.  Same
routing as in `Main`, but the reply text is sent verbatim and the
acknowledgment is `"Message sent ✅"`. -/
def admin_reply_handler (adminId senderId : Nat) (replyTo : Option Nat)
    (text : String) (b : BotData) : List Act × BotData :=
  if senderId ≠ adminId then ([], b)
  else
    match replyTo with
    | none => ([], b)
    | some forwarded_id =>
      match b.forwarded_map.lookup forwarded_id with
      | none => ([Act.replyText "❌ User not found."], b)
      | some user_chat =>
        if user_chat = 0 then ([Act.replyText "❌ User not found."], b)
        else ([Act.sendMessage user_chat text, Act.replyText "Message sent ✅"], b)

/-- `photo_handler` of `src/unnamed/part_000` lines 183–194: forward the
photo (failure logged and swallowed), record the correlation on success,
always acknowledge with `"Message sent ✅"`. -/
def photo_handler (adminId chatId msgId : Nat) (fwd : Option Nat) (b : BotData) :
    List Act × BotData :=
  let fwdRes : List Act × BotData :=
    match fwd with
    | some fid => ([Act.forward adminId chatId msgId],
                   { b with forwarded_map := Main.recordForward b.forwarded_map fid chatId })
    | none => ([], b)
  (fwdRes.1 ++ [Act.replyText "Message sent ✅"], fwdRes.2)

/-- The default text of `type_animation`, `src/unnamed/part_000` line 56. -/
def typingText : String := "💬 Bot is typing…"

/-- One-time notice for the `available` transition, `src/unnamed/part_000`
line 235. -/
def availableNotice : String := "🟢 Admin available."

/-- One-time notice for the `away` transition, `src/unnamed/part_000`
line 239; the same string is the first-time-busy reply of line 252. -/
def awayNotice : String := "🔴 Admin busy.\nMessage sent ✅\n⏳ Reply within 48 hours."

/-- The status-notice consumption step of `handle_message`,
`src/unnamed/part_000` lines 231–239 (same logic as in `Main`). -/
def consumePendingNotice (b : BotData) : Option String × BotData :=
  if b.admin_status_changed = some "available" then
    (some "available", { b with admin_status_changed := none })
  else if b.admin_status_changed = some "away" then
    (some "away", { b with admin_status_changed := none })
  else (none, b)

/-- The greeting token list of `src/unnamed/part_000` line 210. -/
def greetings : List String :=
  ["hi", "hello", "hey", "hlo", "hola", "namaste", "salam", "assalamualaikum"]

/-- `handle_message` of `src/unnamed/part_000` lines 200–254: spam gate,
truncation, greeting branch (no forward), then silent forward, typing
filler, one-time status notice, and the fixed-string general replies. -/
def handle_message (adminId chatId msgId : Nat) (text0 : String)
    (firstName : Option String) (now : ℚ) (fwd : Option Nat)
    (outerExc : Option String) (svc : Except String GenResp)
    (u : UserState) (b : BotData) : List Act × UserState × BotData :=
  let sp := user_spam now u
  if sp.1 then ([], sp.2, b)
  else
    let u1 := sp.2
    let text := String.mk (text0.data.take 500)
    let lang := detect_language text
    let name := firstName.getD "Friend"
    if greetings.contains (lowerStr text) then
      ([Act.replyText (smart_welcome outerExc svc name lang)], u1, b)
    else
      let fwdRes : List Act × BotData :=
        match fwd with
        | some fid => ([Act.forward adminId chatId msgId],
                       { b with forwarded_map := Main.recordForward b.forwarded_map fid chatId })
        | none => ([], b)
      let b1 := fwdRes.2
      let acts := fwdRes.1 ++ [Act.replyText typingText]
      let con := consumePendingNotice b1
      match con.1 with
      | some s =>
        if s = "available" then (acts ++ [Act.replyText availableNotice], u1, con.2)
        else (acts ++ [Act.replyText awayNotice], u1, con.2)
      | none =>
        let first_time := !u1.busy_shown
        let u2 := { u1 with busy_shown := true }
        if b1.admin_available then (acts ++ [Act.replyText "Message sent ✅"], u2, b1)
        else if first_time then (acts ++ [Act.replyText awayNotice], u2, b1)
        else (acts ++ [Act.replyText "Message sent ✅"], u2, b1)

end V1

/-- An inbound Telegram update together with the environment oracles its
handling consumes: the clock `now`, the forward-transport result
`fwdResult`, and the generative-service oracles. -/
structure Upd where
  senderId : Nat
  chatId : Nat
  msgId : Nat
  text : Option String
  replyTo : Option Nat
  photo : Bool
  firstName : Option String
  now : ℚ
  fwdResult : Option Nat
  outerExc : Option String
  svc : Except String GenResp

/-- Whole-process state: one `UserState` per user id plus the shared
`BotData`. -/
structure Sys where
  users : Nat → UserState
  bot : BotData

/-- `filters.COMMAND`: the text starts with a slash. -/
def isCommandMsg (t : String) : Bool := ['/'].isPrefixOf t.data

/-- `CommandHandler cmd` matching: the text is `/cmd` or starts with
`/cmd ` (bot-username suffixes are not modelled). -/
def matchesCommand (t cmd : String) : Bool :=
  t = "/" ++ cmd || ("/" ++ cmd ++ " ").data.isPrefixOf t.data

namespace Main

/-- Dispatch of one update per the handler registration of `src/main.py`
lines 243–247: the command handlers for `/start`, `/available`, `/away`,
then `MessageHandler(filters.REPLY & filters.TEXT, admin_reply_handler)`,
then `MessageHandler(filters.TEXT & ~filters.COMMAND, handle_message)`;
the first matching handler wins.  Non-text updates match nothing. -/
def dispatch (adminId : Nat) (e : Upd) (s : Sys) : List Act × Sys :=
  match e.text with
  | none => ([], s)
  | some t =>
    if matchesCommand t "start" then (start_cmd, s)
    else if matchesCommand t "available" then
      let r := available_cmd adminId e.senderId s.bot
      (r.1, { s with bot := r.2 })
    else if matchesCommand t "away" then
      let r := away_cmd adminId e.senderId s.bot
      (r.1, { s with bot := r.2 })
    else if e.replyTo.isSome then
      let r := admin_reply_handler adminId e.senderId e.replyTo t s.bot
      (r.1, { s with bot := r.2 })
    else if !isCommandMsg t then
      let r := handle_message adminId e.chatId e.msgId t e.now e.fwdResult
        e.outerExc e.svc (s.users e.senderId) s.bot
      (r.1, { users := Function.update s.users e.senderId r.2.1, bot := r.2.2 })
    else ([], s)

/-- Running the `src/main.py` process over a list of inbound updates. -/
def run (adminId : Nat) (s : Sys) (es : List Upd) : Sys :=
  es.foldl (fun s e => (dispatch adminId e s).2) s

end Main

namespace V1

/-- Dispatch of one update per the handler registration of
`src/unnamed/part_000` lines 263–268: commands, then the reply handler,
then `MessageHandler(filters.PHOTO, photo_handler)`, then the general text
handler. -/
def dispatch (adminId : Nat) (e : Upd) (s : Sys) : List Act × Sys :=
  match e.text with
  | none =>
    if e.photo then
      let r := photo_handler adminId e.chatId e.msgId e.fwdResult s.bot
      (r.1, { s with bot := r.2 })
    else ([], s)
  | some t =>
    if matchesCommand t "start" then (start_cmd e.outerExc e.svc e.firstName, s)
    else if matchesCommand t "available" then
      let r := available_cmd adminId e.senderId s.bot
      (r.1, { s with bot := r.2 })
    else if matchesCommand t "away" then
      let r := away_cmd adminId e.senderId s.bot
      (r.1, { s with bot := r.2 })
    else if e.replyTo.isSome then
      let r := admin_reply_handler adminId e.senderId e.replyTo t s.bot
      (r.1, { s with bot := r.2 })
    else if e.photo then
      let r := photo_handler adminId e.chatId e.msgId e.fwdResult s.bot
      (r.1, { s with bot := r.2 })
    else if !isCommandMsg t then
      let r := handle_message adminId e.chatId e.msgId t e.firstName e.now
        e.fwdResult e.outerExc e.svc (s.users e.senderId) s.bot
      (r.1, { users := Function.update s.users e.senderId r.2.1, bot := r.2.2 })
    else ([], s)

/-- Running the `src/unnamed/part_000` process over a list of inbound
updates. -/
def run (adminId : Nat) (s : Sys) (es : List Upd) : Sys :=
  es.foldl (fun s e => (dispatch adminId e s).2) s

end V1

/-- Spec-side predicate: the text holds a code point of the Devanagari
Unicode block (U+0900–U+097F). -/
def containsDevanagari (t : String) : Prop :=
  ∃ c ∈ t.data, 0x0900 ≤ c.toNat ∧ c.toNat ≤ 0x097F

/-- Spec-side predicate: the text holds a code point of the Bengali
Unicode block (U+0980–U+09FF). -/
def containsBengali (t : String) : Prop :=
  ∃ c ∈ t.data, 0x0980 ≤ c.toNat ∧ c.toNat ≤ 0x09FF

instance (t : String) : Decidable (containsDevanagari t) := by
  unfold containsDevanagari
  infer_instance

instance (t : String) : Decidable (containsBengali t) := by
  unfold containsBengali
  infer_instance

/-- Helper: consuming from a state with no pending notice yields `none`
forever. -/
theorem Main.consumeStream_of_none (k : Nat) :
    ∀ b : BotData, b.admin_status_changed = none →
      Main.consumeStream b k = none := by
  induction k with
  | zero =>
    intro b h
    simp [Main.consumeStream, Main.consumePendingNotice, h]
  | succ k ih =>
    intro b h
    rw [Main.consumeStream]
    exact ih _ (by simp [Main.consumePendingNotice, h])

/-- C1: after `setAvailable` (resp. `setAway`), the first
`consumePendingNotice` returns the `"available"` (resp. `"away"`) notice
and resets the pending notice to `none`; every later consumption in a row
of consecutive calls (before any further transition) returns `none`. -/
theorem C1_pending_notice_consumed_once (b : BotData) (k : Nat) :
    Main.consumeStream (Main.setAvailable b) 0 = some "available" ∧
    (Main.consumePendingNotice (Main.setAvailable b)).2.admin_status_changed = none ∧
    Main.consumeStream (Main.setAvailable b) (k + 1) = none ∧
    Main.consumeStream (Main.setAway b) 0 = some "away" ∧
    (Main.consumePendingNotice (Main.setAway b)).2.admin_status_changed = none ∧
    Main.consumeStream (Main.setAway b) (k + 1) = none := by
  refine ⟨?_, ?_, ?_, ?_, ?_, ?_⟩
  · simp [Main.consumeStream, Main.consumePendingNotice, Main.setAvailable]
  · simp [Main.consumePendingNotice, Main.setAvailable]
  · rw [Main.consumeStream]
    exact Main.consumeStream_of_none k _ (by simp [Main.consumePendingNotice, Main.setAvailable])
  · simp [Main.consumeStream, Main.consumePendingNotice, Main.setAway]
  · simp [Main.consumePendingNotice, Main.setAway]
  · rw [Main.consumeStream]
    exact Main.consumeStream_of_none k _ (by simp [Main.consumePendingNotice, Main.setAway])

/-- C2: in both variants, a message arriving within the cooldown interval
of the user's `last_time` is dropped by `handle_message` with no action
emitted and no state change (in particular `last_time` is not advanced);
a non-blocked `user_spam` call stamps `last_time := now` and returns
`false`. -/
theorem C2_cooldown_gate (adminId chatId msgId : Nat) (text : String)
    (firstName : Option String) (now : ℚ) (fwd : Option Nat)
    (oe : Option String) (svc : Except String GenResp)
    (u : UserState) (b : BotData) :
    (now - u.last_time < 1.5 →
      Main.user_spam now u = (true, u) ∧
      Main.handle_message adminId chatId msgId text now fwd oe svc u b = ([], u, b)) ∧
    (¬ now - u.last_time < 1.5 →
      Main.user_spam now u = (false, { u with last_time := now })) ∧
    (now - u.last_time < 1.2 →
      V1.user_spam now u = (true, u) ∧
      V1.handle_message adminId chatId msgId text firstName now fwd oe svc u b = ([], u, b)) ∧
    (¬ now - u.last_time < 1.2 →
      V1.user_spam now u = (false, { u with last_time := now })) := by
  refine ⟨fun h => ⟨?_, ?_⟩, fun h => ?_, fun h => ⟨?_, ?_⟩, fun h => ?_⟩
  · simp [Main.user_spam, h]
  · simp [Main.handle_message, Main.user_spam, h]
  · simp [Main.user_spam, h]
  · simp [V1.user_spam, h]
  · simp [V1.handle_message, V1.user_spam, h]
  · simp [V1.user_spam, h]

/-- Closed witness for `C2_cooldown_gate`: with `last_time = 0`, a message
at `now = 1` is blocked by both gates and dropped, and a message at
`now = 2` passes both gates and stamps `last_time := 2`. -/
theorem C2_cooldown_gate_witness :
    (Main.user_spam 1 ⟨0, false⟩ = (true, ⟨0, false⟩) ∧
      Main.handle_message 1 7 3 "yo" 1 (some 99) none (.error "boom") ⟨0, false⟩
        ⟨false, none, []⟩ = ([], ⟨0, false⟩, ⟨false, none, []⟩)) ∧
    (V1.user_spam 1 ⟨0, false⟩ = (true, ⟨0, false⟩) ∧
      V1.handle_message 1 7 3 "yo" none 1 (some 99) none (.error "boom") ⟨0, false⟩
        ⟨false, none, []⟩ = ([], ⟨0, false⟩, ⟨false, none, []⟩)) ∧
    Main.user_spam 2 ⟨0, false⟩ = (false, ⟨2, false⟩) ∧
    V1.user_spam 2 ⟨0, false⟩ = (false, ⟨2, false⟩) := by
  have h1 := C2_cooldown_gate 1 7 3 "yo" none 1 (some 99) none (.error "boom")
    ⟨0, false⟩ ⟨false, none, []⟩
  have h2 := C2_cooldown_gate 1 7 3 "yo" none 2 (some 99) none (.error "boom")
    ⟨0, false⟩ ⟨false, none, []⟩
  exact ⟨h1.1 (by norm_num), h1.2.2.1 (by norm_num),
    h2.2.1 (by norm_num), h2.2.2.2 (by norm_num)⟩

/-- Helper: a lookup whose key heads none of the pairs of the first list
skips over it. -/
theorem lookup_append_of_not_fst (y : Nat) :
    ∀ l₁ l₂ : List (Nat × Nat), y ∉ l₁.map Prod.fst →
      (l₁ ++ l₂).lookup y = l₂.lookup y := by
  intro l₁
  induction l₁ with
  | nil => intro l₂ _; simp
  | cons p rest ih =>
    intro l₂ h
    simp only [List.map_cons, List.mem_cons, not_or] at h
    have hk : (y == p.1) = false := beq_eq_false_iff_ne.mpr h.1
    cases p with
    | mk k v =>
      simp only [List.cons_append, List.lookup, hk]
      exact ih l₂ h.2

/-- Helper: a lookup for a key that is none of the stored keys misses. -/
theorem lookup_eq_none_of_not_fst (y : Nat) :
    ∀ m : List (Nat × Nat), y ∉ m.map Prod.fst → m.lookup y = none := by
  intro m
  induction m with
  | nil => intro _; simp
  | cons p rest ih =>
    intro h
    simp only [List.map_cons, List.mem_cons, not_or] at h
    have hk : (y == p.1) = false := beq_eq_false_iff_ne.mpr h.1
    cases p with
    | mk k v =>
      simp only [List.lookup, hk]
      exact ih h.2

/-- C3: `resolve x` after `recordForward x c`, with no later overwrite of
`x`, returns `c`; `resolve y` for a never-recorded `y` returns `none`, and
on such a miss `admin_reply_handler` (both variants) answers the admin with
"❌ User not found." only, leaving the state unchanged and sending no
message to any user chat. -/
theorem C3_correlation_map (m later : List (Nat × Nat)) (x c y adminId : Nat)
    (text : String) (b : BotData) :
    (x ∉ later.map Prod.fst →
      Main.resolve (later ++ Main.recordForward m x c) x = some c) ∧
    (y ∉ m.map Prod.fst → Main.resolve m y = none) ∧
    (Main.resolve b.forwarded_map y = none →
      Main.admin_reply_handler adminId adminId (some y) text b =
        ([Act.replyText "❌ User not found."], b) ∧
      V1.admin_reply_handler adminId adminId (some y) text b =
        ([Act.replyText "❌ User not found."], b) ∧
      ∀ ch t', Act.sendMessage ch t' ∉
        (Main.admin_reply_handler adminId adminId (some y) text b).1) := by
  refine ⟨fun h => ?_, fun h => ?_, fun h => ⟨?_, ?_, ?_⟩⟩
  · rw [Main.resolve, Main.recordForward, lookup_append_of_not_fst x later _ h]
    simp [List.lookup]
  · exact lookup_eq_none_of_not_fst y m h
  · simp [Main.admin_reply_handler, h]
  · have h' : b.forwarded_map.lookup y = none := h
    simp [V1.admin_reply_handler, h']
  · simp [Main.admin_reply_handler, h]

/-- Closed witness for `C3_correlation_map`: with map `[(5, 7)]` and a
later record of key `6`, resolving `5` still yields `7`; resolving the
never-recorded `9` misses, and the admin reply to `9` gets "user not
found" with no user-chat message. -/
theorem C3_correlation_map_witness :
    Main.resolve ([(6, 8)] ++ Main.recordForward [] 5 7) 5 = some 7 ∧
    Main.resolve [(5, 7)] 9 = none ∧
    Main.admin_reply_handler 1 1 (some 9) "hello" ⟨false, none, [(5, 7)]⟩ =
      ([Act.replyText "❌ User not found."], ⟨false, none, [(5, 7)]⟩) ∧
    V1.admin_reply_handler 1 1 (some 9) "hello" ⟨false, none, [(5, 7)]⟩ =
      ([Act.replyText "❌ User not found."], ⟨false, none, [(5, 7)]⟩) := by
  have h := C3_correlation_map [] [(6, 8)] 5 7 9 1 "hello" ⟨false, none, [(5, 7)]⟩
  have h2 := C3_correlation_map [(5, 7)] [] 5 7 9 1 "hello" ⟨false, none, [(5, 7)]⟩
  have hmiss : Main.resolve (BotData.mk false none [(5, 7)]).forwarded_map 9 = none := by
    decide
  exact ⟨h.1 (by decide), h2.2.1 (by decide), (h.2.2 hmiss).1, (h.2.2 hmiss).2.1⟩

/-- C4: in both variants, `available_cmd` and `away_cmd` invoked by a
non-admin sender emit the rejection reply and leave the bot state (both
`admin_available` and `admin_status_changed`) unchanged. -/
theorem C4_nonadmin_setter_rejected (adminId senderId : Nat) (b : BotData)
    (h : senderId ≠ adminId) :
    Main.available_cmd adminId senderId b = ([Act.replyText "❌ Not allowed."], b) ∧
    Main.away_cmd adminId senderId b = ([Act.replyText "❌ Not allowed."], b) ∧
    V1.available_cmd adminId senderId b = ([Act.replyText "❌ Not allowed."], b) ∧
    V1.away_cmd adminId senderId b = ([Act.replyText "❌ Not allowed."], b) := by
  refine ⟨?_, ?_, ?_, ?_⟩ <;>
    simp [Main.available_cmd, Main.away_cmd, V1.available_cmd, V1.away_cmd, h]

/-- Closed witness for `C4_nonadmin_setter_rejected` at sender `2`,
admin `1`. -/
theorem C4_nonadmin_setter_rejected_witness :
    Main.available_cmd 1 2 ⟨true, some "available", []⟩ =
      ([Act.replyText "❌ Not allowed."], ⟨true, some "available", []⟩) ∧
    Main.away_cmd 1 2 ⟨true, some "available", []⟩ =
      ([Act.replyText "❌ Not allowed."], ⟨true, some "available", []⟩) ∧
    V1.available_cmd 1 2 ⟨true, some "available", []⟩ =
      ([Act.replyText "❌ Not allowed."], ⟨true, some "available", []⟩) ∧
    V1.away_cmd 1 2 ⟨true, some "available", []⟩ =
      ([Act.replyText "❌ Not allowed."], ⟨true, some "available", []⟩) :=
  C4_nonadmin_setter_rejected 1 2 ⟨true, some "available", []⟩ (by decide)

/-- C5: with the admin having just called `setAway`, a first-ever
(`last_time = 0`, `busy_shown = false`) non-greeting text that passes the
gate and whose forward succeeds is forwarded to the admin with the
correlation recorded, then answered by the typing filler and exactly the
one-time away notice — consuming `admin_status_changed` — and nothing
else: the first-time-busy path is not taken and `busy_shown` stays
`false`.  Proved for both variants. -/
theorem C5_away_notice_scenario (adminId chatId msgId : Nat) (text : String)
    (firstName : Option String) (now : ℚ) (fid : Nat)
    (oe : Option String) (svc : Except String GenResp) (b : BotData)
    (hnow : (1.5 : ℚ) ≤ now)
    (hg : lowerStr (String.mk (text.data.take 500)) ∉ V1.greetings) :
    Main.handle_message adminId chatId msgId text now (some fid) oe svc
      ⟨0, false⟩ (Main.setAway b) =
      ([Act.forward adminId chatId msgId, Act.replyText Main.typingText,
        Act.replyText Main.awayNotice],
       ⟨now, false⟩,
       { b with admin_available := false, admin_status_changed := none,
                forwarded_map := Main.recordForward b.forwarded_map fid chatId }) ∧
    V1.handle_message adminId chatId msgId text firstName now (some fid) oe svc
      ⟨0, false⟩ (V1.setAway b) =
      ([Act.forward adminId chatId msgId, Act.replyText V1.typingText,
        Act.replyText V1.awayNotice],
       ⟨now, false⟩,
       { b with admin_available := false, admin_status_changed := none,
                forwarded_map := Main.recordForward b.forwarded_map fid chatId }) := by
  have hq : ¬ now < 1.5 := not_lt.mpr hnow
  have hq2 : ¬ now < 1.2 := not_lt.mpr (le_trans (by norm_num) hnow)
  constructor
  · simp [Main.handle_message, Main.user_spam, Main.setAway,
      Main.consumePendingNotice, Main.recordForward, hq]
  · simp [V1.handle_message, V1.user_spam, V1.setAway,
      V1.consumePendingNotice, Main.recordForward, hq2, hg]

/-- Closed witness for `C5_away_notice_scenario`: user 7 sends
"Need help" at time 5 right after `setAway`, the forward yields message id
99. -/
theorem C5_away_notice_scenario_witness :
    Main.handle_message 1 7 3 "Need help" 5 (some 99) none (.error "boom")
      ⟨0, false⟩ (Main.setAway ⟨false, none, []⟩) =
      ([Act.forward 1 7 3, Act.replyText Main.typingText,
        Act.replyText Main.awayNotice],
       ⟨5, false⟩, ⟨false, none, [(99, 7)]⟩) ∧
    V1.handle_message 1 7 3 "Need help" none 5 (some 99) none (.error "boom")
      ⟨0, false⟩ (V1.setAway ⟨false, none, []⟩) =
      ([Act.forward 1 7 3, Act.replyText V1.typingText,
        Act.replyText V1.awayNotice],
       ⟨5, false⟩, ⟨false, none, [(99, 7)]⟩) := by
  have h := C5_away_notice_scenario 1 7 3 "Need help" none 5 99 none (.error "boom")
    ⟨false, none, []⟩ (by norm_num) (by decide)
  exact h

/-- Helper: the spam gate never touches `busy_shown`. -/
theorem Main.user_spam_busy_main (now : ℚ) (u : UserState) :
    ((Main.user_spam now u).2).busy_shown = u.busy_shown := by
  unfold Main.user_spam
  split <;> rfl

/-- Helper: the V1 spam gate never touches `busy_shown`. -/
theorem V1.user_spam_busy_v1 (now : ℚ) (u : UserState) :
    ((V1.user_spam now u).2).busy_shown = u.busy_shown := by
  unfold V1.user_spam
  split <;> rfl

/-- Helper: `Main.handle_message` never resets `busy_shown` once true. -/
theorem Main.handle_message_busy_mono_main (adminId chatId msgId : Nat) (text : String)
    (now : ℚ) (fwd : Option Nat) (oe : Option String) (svc : Except String GenResp)
    (u : UserState) (b : BotData) (h : u.busy_shown = true) :
    (Main.handle_message adminId chatId msgId text now fwd oe svc u b).2.1.busy_shown
      = true := by
  by_cases hsp : now - u.last_time < 1.5
  · simp [Main.handle_message, Main.user_spam, hsp, h]
  · by_cases h1 : b.admin_status_changed = some "available"
    · cases fwd <;>
        simp [Main.handle_message, Main.user_spam, Main.consumePendingNotice, hsp, h1, h]
    · by_cases h2 : b.admin_status_changed = some "away"
      · cases fwd <;>
          simp [Main.handle_message, Main.user_spam, Main.consumePendingNotice, hsp, h1, h2, h]
      · cases fwd <;>
          simp [Main.handle_message, Main.user_spam, Main.consumePendingNotice, hsp, h1, h2, h]

/-- Helper: `V1.handle_message` never resets `busy_shown` once true. -/
theorem V1.handle_message_busy_mono_v1 (adminId chatId msgId : Nat) (text : String)
    (firstName : Option String) (now : ℚ) (fwd : Option Nat) (oe : Option String)
    (svc : Except String GenResp) (u : UserState) (b : BotData)
    (h : u.busy_shown = true) :
    (V1.handle_message adminId chatId msgId text firstName now fwd oe svc u b).2.1.busy_shown
      = true := by
  by_cases hsp : now - u.last_time < 1.2
  · simp [V1.handle_message, V1.user_spam, hsp, h]
  · by_cases hgr : lowerStr (String.mk (text.data.take 500)) ∈ V1.greetings
    · simp [V1.handle_message, V1.user_spam, hsp, hgr, h]
    · by_cases h1 : b.admin_status_changed = some "available"
      · cases fwd <;>
          simp [V1.handle_message, V1.user_spam, V1.consumePendingNotice, hsp, hgr, h1, h]
      · by_cases h2 : b.admin_status_changed = some "away"
        · cases fwd <;>
            simp [V1.handle_message, V1.user_spam, V1.consumePendingNotice, hsp, hgr, h1, h2, h]
        · cases fwd <;> cases hb : b.admin_available <;>
            simp [V1.handle_message, V1.user_spam, V1.consumePendingNotice,
              hsp, hgr, h1, h2, hb, h]

/-- Helper: one dispatched update of `src/main.py` never resets any user's
`busy_shown` once true. -/
theorem Main.dispatch_busy_mono_main (adminId : Nat) (e : Upd) (s : Sys) (uid : Nat)
    (h : (s.users uid).busy_shown = true) :
    (((Main.dispatch adminId e s).2).users uid).busy_shown = true := by
  unfold Main.dispatch
  cases htext : e.text with
  | none => exact h
  | some t =>
    repeat' split
    all_goals try exact h
    all_goals simp only [Function.update_apply]
    all_goals by_cases huid : uid = e.senderId
    all_goals simp only [huid, if_pos, if_neg, if_true, if_false]
    all_goals try exact h
    all_goals rw [huid] at h
    all_goals exact Main.handle_message_busy_mono_main _ _ _ _ _ _ _ _ _ _ h

/-- Helper: one dispatched update of `src/unnamed/part_000` never resets
any user's `busy_shown` once true. -/
theorem V1.dispatch_busy_mono_v1 (adminId : Nat) (e : Upd) (s : Sys) (uid : Nat)
    (h : (s.users uid).busy_shown = true) :
    (((V1.dispatch adminId e s).2).users uid).busy_shown = true := by
  unfold V1.dispatch
  cases htext : e.text with
  | none =>
    cases hp : e.photo
    · exact h
    · exact h
  | some t =>
    repeat' split
    all_goals try exact h
    all_goals simp only [Function.update_apply]
    all_goals by_cases huid : uid = e.senderId
    all_goals simp only [huid, if_pos, if_neg, if_true, if_false]
    all_goals try exact h
    all_goals rw [huid] at h
    all_goals exact V1.handle_message_busy_mono_v1 _ _ _ _ _ _ _ _ _ _ _ h

/-- Helper: over any update sequence of `src/main.py`, `busy_shown` is a
monotone latch. -/
theorem Main.run_busy_mono_main (adminId : Nat) (es : List Upd) :
    ∀ (s : Sys) (uid : Nat), (s.users uid).busy_shown = true →
      ((Main.run adminId s es).users uid).busy_shown = true := by
  induction es with
  | nil => intro s uid h; exact h
  | cons e rest ih =>
    intro s uid h
    exact ih _ uid (Main.dispatch_busy_mono_main adminId e s uid h)

/-- Helper: over any update sequence of `src/unnamed/part_000`,
`busy_shown` is a monotone latch. -/
theorem V1.run_busy_mono_v1 (adminId : Nat) (es : List Upd) :
    ∀ (s : Sys) (uid : Nat), (s.users uid).busy_shown = true →
      ((V1.run adminId s es).users uid).busy_shown = true := by
  induction es with
  | nil => intro s uid h; exact h
  | cons e rest ih =>
    intro s uid h
    exact ih _ uid (V1.dispatch_busy_mono_v1 adminId e s uid h)

/-- C6: in both variants, for every user, once `busy_shown` is true it
stays true under every sequence of dispatched updates: no operation of the
router ever resets it to false. -/
theorem C6_busy_notice_latch (adminId : Nat) (es : List Upd) (s : Sys) (uid : Nat)
    (h : (s.users uid).busy_shown = true) :
    ((Main.run adminId s es).users uid).busy_shown = true ∧
    ((V1.run adminId s es).users uid).busy_shown = true :=
  ⟨Main.run_busy_mono_main adminId es s uid h, V1.run_busy_mono_v1 adminId es s uid h⟩

/-- Closed witness for `C6_busy_notice_latch`: user 2 with the flag set
keeps it set across a concrete text update handled by both variants. -/
theorem C6_busy_notice_latch_witness :
    ((Main.run 1 ⟨fun _ => ⟨0, true⟩, ⟨false, none, []⟩⟩
        [⟨2, 7, 3, some "yo", none, false, none, 5, some 99, none, .error "x"⟩]).users 2).busy_shown
      = true ∧
    ((V1.run 1 ⟨fun _ => ⟨0, true⟩, ⟨false, none, []⟩⟩
        [⟨2, 7, 3, some "yo", none, false, none, 5, some 99, none, .error "x"⟩]).users 2).busy_shown
      = true :=
  C6_busy_notice_latch 1 _ _ 2 rfl

/-- C7 counterexample: in `src/main.py`, a service response raising no
exception but carrying neither a usable `text` attribute nor candidates is
passed through as `str(resp)`, not replaced by a fallback string, so the
claim that every malformed/empty response yields the fixed fallback is
false as stated. -/
theorem C7_fallback_counterexample :
    Main.safe_ask_gemini none (.ok ⟨none, [], "GenerateContentResponse()"⟩) "p"
      = "GenerateContentResponse()" ∧
    "GenerateContentResponse()" ≠ "Message sent ✅" ∧
    "GenerateContentResponse()" ≠ "Message sent ✅." := by
  refine ⟨rfl, by decide, by decide⟩

/-- C7 amended: every failure path of the `src/unnamed/part_000`
synthesizer (outer exception, service exception, missing or empty response
text) returns the fixed fallback `"Message sent ✅"`; in `src/main.py` a
service exception returns `"Message sent ✅."` and an outer exception one
of the two fallback strings — but a non-exceptional malformed response is
passed through (see the counterexample). -/
theorem C7_fallback_on_failure (prompt e : String) (svc : Except String GenResp)
    (r : GenResp) :
    V1.safe_ask_gemini (some e) svc prompt = "Message sent ✅" ∧
    V1.safe_ask_gemini none (.error e) prompt = "Message sent ✅" ∧
    (r.text = none ∨ r.text = some "" →
      V1.safe_ask_gemini none (.ok r) prompt = "Message sent ✅") ∧
    Main.safe_ask_gemini none (.error e) prompt = "Message sent ✅." ∧
    (Main.safe_ask_gemini (some e) svc prompt = "Message sent ✅." ∨
      Main.safe_ask_gemini (some e) svc prompt = "Message sent ✅") := by
  refine ⟨rfl, rfl, ?_, rfl, ?_⟩
  · rintro (ht | ht) <;> simp [V1.safe_ask_gemini, V1.ask_gemini, ht]
  · by_cases hx : (strContains e "429" || strContains e.toLower "rate") = true
    · exact Or.inl (by simp [Main.safe_ask_gemini, hx]; rfl)
    · exact Or.inr (by simp [Main.safe_ask_gemini, hx])

/-- Closed witness for `C7_fallback_on_failure` at a missing-text response
and a thrown "HTTP 429". -/
theorem C7_fallback_on_failure_witness :
    V1.safe_ask_gemini none (.ok ⟨none, [], "x"⟩) "p" = "Message sent ✅" ∧
    Main.safe_ask_gemini none (.error "HTTP 429") "p" = "Message sent ✅." :=
  ⟨(C7_fallback_on_failure "p" "HTTP 429" (.error "HTTP 429") ⟨none, [], "x"⟩).2.2.1
      (Or.inl rfl),
   (C7_fallback_on_failure "p" "HTTP 429" (.error "HTTP 429") ⟨none, [], "x"⟩).2.2.2.1⟩

/-- C8 counterexample: the two-character string "अঅ" holds a Bengali code
point, yet `src/main.py`'s `detect_language` classifies it `"hindi"`
because the Devanagari block is tested first; the claim that any text with
a Bengali code point is classified `bengali` is false as stated. -/
theorem C8_detect_language_counterexample :
    Main.detect_language "अঅ" = "hindi" ∧
    (∃ c ∈ "अঅ".data, 0x0980 ≤ c.toNat ∧ c.toNat ≤ 0x09FF) ∧
    "hindi" ≠ "bengali" := by
  refine ⟨by decide, by decide, by decide⟩

/-- C8 amended: `detect_language` is a total deterministic function; in
`src/main.py` a Devanagari code point anywhere yields `"hindi"` (even when
Bengali code points are also present), else a Bengali code point yields
`"bengali"`, else the result is `"english"` (whether or not Latin letters
occur); in `src/unnamed/part_000` a Bengali code point yields `"bengali"`
and anything else `"english"`. -/
theorem C8_detect_language_rule (t : String) :
    (containsDevanagari t → Main.detect_language t = "hindi") ∧
    (¬ containsDevanagari t → containsBengali t →
      Main.detect_language t = "bengali") ∧
    (¬ containsDevanagari t → ¬ containsBengali t →
      Main.detect_language t = "english") ∧
    (containsBengali t → V1.detect_language t = "bengali") ∧
    (¬ containsBengali t → V1.detect_language t = "english") := by
  have hd : (t.data.any fun c => decide (0x0900 ≤ c.toNat ∧ c.toNat ≤ 0x097F)) = true
      ↔ containsDevanagari t := by
    simp [containsDevanagari, List.any_eq_true]
  have hb : (t.data.any fun c => decide (0x0980 ≤ c.toNat ∧ c.toNat ≤ 0x09FF)) = true
      ↔ containsBengali t := by
    simp [containsBengali, List.any_eq_true]
  have hdf : ¬ containsDevanagari t →
      (t.data.any fun c => decide (0x0900 ≤ c.toNat ∧ c.toNat ≤ 0x097F)) = false := by
    intro h
    cases hX : t.data.any fun c => decide (0x0900 ≤ c.toNat ∧ c.toNat ≤ 0x097F)
    · rfl
    · exact absurd (hd.mp hX) h
  have hbf : ¬ containsBengali t →
      (t.data.any fun c => decide (0x0980 ≤ c.toNat ∧ c.toNat ≤ 0x09FF)) = false := by
    intro h
    cases hX : t.data.any fun c => decide (0x0980 ≤ c.toNat ∧ c.toNat ≤ 0x09FF)
    · rfl
    · exact absurd (hb.mp hX) h
  refine ⟨fun h => ?_, fun h hbeng => ?_, fun h hnb => ?_, fun h => ?_, fun h => ?_⟩
  · unfold Main.detect_language
    rw [if_pos (hd.mpr h)]
  · have h1 : ¬ ((t.data.any fun c =>
        decide (0x0900 ≤ c.toNat ∧ c.toNat ≤ 0x097F)) = true) := by
      rw [hdf h]; simp
    unfold Main.detect_language
    rw [if_neg h1, if_pos (hb.mpr hbeng)]
  · have h1 : ¬ ((t.data.any fun c =>
        decide (0x0900 ≤ c.toNat ∧ c.toNat ≤ 0x097F)) = true) := by
      rw [hdf h]; simp
    have h2 : ¬ ((t.data.any fun c =>
        decide (0x0980 ≤ c.toNat ∧ c.toNat ≤ 0x09FF)) = true) := by
      rw [hbf hnb]; simp
    unfold Main.detect_language
    rw [if_neg h1, if_neg h2]
    simp
  · unfold V1.detect_language
    rw [if_pos (hb.mpr h)]
  · have h2 : ¬ ((t.data.any fun c =>
        decide (0x0980 ≤ c.toNat ∧ c.toNat ≤ 0x09FF)) = true) := by
      rw [hbf h]; simp
    unfold V1.detect_language
    rw [if_neg h2]

/-- Closed witness for `C8_detect_language_rule` on concrete texts from
each script class. -/
theorem C8_detect_language_rule_witness :
    Main.detect_language "অ" = "bengali" ∧
    Main.detect_language "अ" = "hindi" ∧
    Main.detect_language "abc" = "english" ∧
    V1.detect_language "অ" = "bengali" ∧
    V1.detect_language "hello" = "english" :=
  ⟨(C8_detect_language_rule "অ").2.1 (by decide) (by decide),
   (C8_detect_language_rule "अ").1 (by decide),
   (C8_detect_language_rule "abc").2.2.1 (by decide) (by decide),
   (C8_detect_language_rule "অ").2.2.2.1 (by decide),
   (C8_detect_language_rule "hello").2.2.2.2 (by decide)⟩

/-- C9 counterexample: "hi" is a greeting token, yet when it arrives
within the cooldown window (last message at 10, this one at 11, gap 1
second < 1.2) it is dropped by the spam gate before the greeting branch
runs: no welcome of any kind is emitted, so the greeting branch does not
fire for every greeting text, and the cooldown gate is not bypassed. -/
theorem C9_greeting_counterexample :
    V1.greetings.contains (lowerStr "hi") = true ∧
    V1.handle_message 1 7 3 "hi" none (11 : ℚ) (some 99) none (.error "e")
      ⟨10, false⟩ ⟨false, none, []⟩ = ([], ⟨10, false⟩, ⟨false, none, []⟩) := by
  constructor
  · decide
  · have hlt : (11 : ℚ) - 10 < 1.2 := by norm_num
    simp [V1.handle_message, V1.user_spam, hlt]

/-- C9 amended: a text whose lowercased (truncated) form is a greeting
token and which passes the cooldown gate is answered with the synthesized
(or fallback) welcome only: no forward, no correlation record, no status
notice — but the gate itself runs first, dropping in-cooldown greetings
and advancing `last_time` for accepted ones. -/
theorem C9_greeting_branch (adminId chatId msgId : Nat) (text : String)
    (firstName : Option String) (now : ℚ) (fwd : Option Nat) (oe : Option String)
    (svc : Except String GenResp) (u : UserState) (b : BotData)
    (hsp : ¬ now - u.last_time < 1.2)
    (hg : lowerStr (String.mk (text.data.take 500)) ∈ V1.greetings) :
    V1.handle_message adminId chatId msgId text firstName now fwd oe svc u b =
      ([Act.replyText (V1.smart_welcome oe svc (firstName.getD "Friend")
          (V1.detect_language (String.mk (text.data.take 500))))],
       { u with last_time := now }, b) := by
  simp [V1.handle_message, V1.user_spam, hsp, hg]

/-- Closed witness for `C9_greeting_branch`: a first-time "Hi" at time 20
yields exactly one welcome reply and leaves the bot state untouched. -/
theorem C9_greeting_branch_witness :
    V1.handle_message 1 7 3 "Hi" none 20 (some 99) none (.error "e") ⟨0, false⟩
      ⟨false, none, []⟩ =
      ([Act.replyText (V1.smart_welcome none (.error "e") "Friend" "english")],
       ⟨20, false⟩, ⟨false, none, []⟩) := by
  have h := C9_greeting_branch 1 7 3 "Hi" none 20 (some 99) none (.error "e")
    ⟨0, false⟩ ⟨false, none, []⟩ (by norm_num) (by decide)
  exact h

/-- C10 counterexample: a non-admin reply whose text is the command
`/available` is not silently swallowed: the command handler matches before
the reply handler and emits the rejection reply, so the claim does not
hold for every reply text. -/
theorem C10_nonadmin_reply_counterexample :
    (2 : Nat) ≠ 1 ∧
    (Main.dispatch 1 ⟨2, 7, 3, some "/available", some 5, false, none, 5, none, none,
        .error "x"⟩
      ⟨fun _ => ⟨0, false⟩, ⟨false, none, []⟩⟩).1 = [Act.replyText "❌ Not allowed."] := by
  constructor
  · decide
  · rfl

/-- C10 amended: a reply-to-message text update from a non-admin sender
that does not invoke one of the registered commands (`/start`,
`/available`, `/away`) is dispatched to `admin_reply_handler`, which
returns immediately: no action of any kind is emitted and the whole state
is unchanged, in both variants. -/
theorem C10_nonadmin_reply_swallowed (adminId : Nat) (e : Upd) (s : Sys) (t : String)
    (hs : e.senderId ≠ adminId) (ht : e.text = some t)
    (hr : e.replyTo.isSome = true)
    (h1 : matchesCommand t "start" = false)
    (h2 : matchesCommand t "available" = false)
    (h3 : matchesCommand t "away" = false) :
    Main.dispatch adminId e s = ([], s) ∧ V1.dispatch adminId e s = ([], s) := by
  constructor
  · simp [Main.dispatch, ht, h1, h2, h3, hr, Main.admin_reply_handler, hs]
  · simp [V1.dispatch, ht, h1, h2, h3, hr, V1.admin_reply_handler, hs]

/-- Closed witness for `C10_nonadmin_reply_swallowed`: user 2 replies
"ok boss" to message 5; both dispatchers do nothing. -/
theorem C10_nonadmin_reply_swallowed_witness :
    Main.dispatch 1 ⟨2, 7, 3, some "ok boss", some 5, false, none, 5, some 99, none,
        .error "x"⟩ ⟨fun _ => ⟨0, false⟩, ⟨false, none, []⟩⟩ =
      ([], ⟨fun _ => ⟨0, false⟩, ⟨false, none, []⟩⟩) ∧
    V1.dispatch 1 ⟨2, 7, 3, some "ok boss", some 5, false, none, 5, some 99, none,
        .error "x"⟩ ⟨fun _ => ⟨0, false⟩, ⟨false, none, []⟩⟩ =
      ([], ⟨fun _ => ⟨0, false⟩, ⟨false, none, []⟩⟩) :=
  C10_nonadmin_reply_swallowed 1 _ _ "ok boss" (by decide) rfl rfl
    (by decide) (by decide) (by decide)
